import Mathlib

/-
Verification of the food-delivery backend (`src/main.py`, `src/schemas.py`):
a shallow embedding of the order-creation endpoint, the entity schemas and
the seed initializer, with theorems settling the specification claims.

Machine floats are modelled as exact rationals, and Python `round(x, 2)` as
round-half-to-even at two decimal places.  Because the library's rational
arithmetic is irreducible (so closed instances could not be evaluated by the
kernel), the embedding computes with `mkRat`-based operations `qadd`, `qmul`,
`qofInt`; the lemmas `qadd_eq`, `qmul_eq`, `qofInt_eq` identify them with the
ordinary field operations of `ℚ`.
-/

namespace FoodDelivery

/-- A JSON-decoded Python value as it can appear inside an order item dict
(the elements of `OrderRequest.items : List[dict]` in `src/main.py`). -/
inductive PyVal where
  | num (q : ℚ)
  | str (s : String)
  | bool (b : Bool)
  | null
  deriving DecidableEq, Repr

/-- An element of the submitted `items` list: a JSON object, i.e. a Python
dict with string keys (unique, so first-match lookup agrees with dict
lookup). -/
abbrev RawItem : Type := List (String × PyVal)

/-- First-match lookup, modelling Python dict access on a JSON object. -/
def pyGet (d : RawItem) (k : String) : Option PyVal :=
  match d with
  | [] => none
  | (k', v) :: rest => if k' = k then some v else pyGet rest k

/-- Python `d.get(k, dflt)`: the stored value when the key is present
(even when that value is `None`), the default otherwise. -/
def pyGetD (d : RawItem) (k : String) (dflt : PyVal) : PyVal :=
  (pyGet d k).getD dflt

/-- Python `d.get(k)`: the stored value, or `None` when the key is absent. -/
def pyGetN (d : RawItem) (k : String) : PyVal :=
  (pyGet d k).getD .null

/-- Value of a decimal digit character. -/
def digitVal (c : Char) : ℕ := c.toNat - 48

/-- Whether every character of the list is a decimal digit. -/
def allDigits (cs : List Char) : Bool := cs.all (fun c => c.isDigit)

/-- Numeric value of a list of decimal digit characters. -/
def digitsToNat (cs : List Char) : ℕ :=
  cs.foldl (fun acc c => 10 * acc + digitVal c) 0

/-- Parse an unsigned decimal literal (`"12"`, `"12.5"`, `".5"`, `"12."`)
to a rational; `none` when the characters do not form such a literal.
Models the plain-decimal fragment of Python `float(str)`. -/
def parseUnsigned (cs : List Char) : Option ℚ :=
  let intPart := cs.takeWhile (fun c => c ≠ '.')
  let rest := cs.dropWhile (fun c => c ≠ '.')
  match rest with
  | [] =>
      if intPart ≠ [] ∧ allDigits intPart then some (mkRat (digitsToNat intPart) 1)
      else none
  | _ :: frac =>
      if allDigits intPart ∧ allDigits frac ∧ (intPart ≠ [] ∨ frac ≠ []) then
        some (mkRat (digitsToNat intPart * 10 ^ frac.length + digitsToNat frac) (10 ^ frac.length))
      else none

/-- Python `float(s)` on a string: optional sign followed by a decimal
literal; any other string raises `ValueError` (modelled as `none`). -/
def parseFloatStr (s : String) : Option ℚ :=
  match s.data with
  | [] => none
  | '-' :: rest => (parseUnsigned rest).map (fun q => mkRat (-q.num) q.den)
  | '+' :: rest => parseUnsigned rest
  | cs => parseUnsigned cs

/-- Python `int(s)` on a string: optional sign followed by digits only
(`int("2.5")` raises). -/
def parseIntStr (s : String) : Option ℤ :=
  match s.data with
  | [] => none
  | '-' :: rest =>
      if rest ≠ [] ∧ allDigits rest then some (-(digitsToNat rest : ℤ)) else none
  | '+' :: rest =>
      if rest ≠ [] ∧ allDigits rest then some (digitsToNat rest : ℤ) else none
  | cs => if cs ≠ [] ∧ allDigits cs then some (digitsToNat cs : ℤ) else none

/-- Truncation toward zero, as Python `int(float)` performs. -/
def truncRat (q : ℚ) : ℤ := if 0 ≤ q then q.floor else -(-q).floor

/-- Python `float(v)` on a JSON-decoded value: numbers pass through,
booleans become 0/1, numeric strings parse, anything else raises
(modelled as `Except.error`). -/
def pyFloat : PyVal → Except String ℚ
  | .num q => .ok q
  | .bool b => .ok (if b then 1 else 0)
  | .str s =>
      match parseFloatStr s with
      | some q => .ok q
      | none => .error "could not convert string to float"
  | .null => .error "float() argument must be a string or a real number, not NoneType"

/-- Python `int(v)` on a JSON-decoded value: numbers truncate toward zero,
booleans become 0/1, integer strings parse, anything else raises. -/
def pyInt : PyVal → Except String ℤ
  | .num q => .ok (truncRat q)
  | .bool b => .ok (if b then 1 else 0)
  | .str s =>
      match parseIntStr s with
      | some n => .ok n
      | none => .error "invalid literal for int() with base 10"
  | .null => .error "int() argument must be a string or a real number, not NoneType"

/-- Rational addition computed on numerators and denominators (the library
addition on `ℚ` is irreducible; `qadd_eq` shows this is the same value). -/
def qadd (a b : ℚ) : ℚ := mkRat (a.num * b.den + b.num * a.den) (a.den * b.den)

/-- Rational multiplication computed on numerators and denominators
(`qmul_eq` shows this is the ordinary product). -/
def qmul (a b : ℚ) : ℚ := mkRat (a.num * b.num) (a.den * b.den)

/-- The rational value of an integer, built with `mkRat`
(`qofInt_eq` shows this is the cast). -/
def qofInt (n : ℤ) : ℚ := mkRat n 1

/-- Round a rational to the nearest integer, ties to even (the rounding mode
of Python `round`).  The fractional part `q - ⌊q⌋ = (q.num - ⌊q⌋·q.den)/q.den`
is compared with `1/2` by cross-multiplication, so the definition is pure
integer arithmetic and evaluates in the kernel. -/
def roundHalfEven (q : ℚ) : ℤ :=
  let f := q.floor
  let num2 := 2 * (q.num - f * q.den)
  if num2 < (q.den : ℤ) then f
  else if (q.den : ℤ) < num2 then f + 1
  else if f % 2 = 0 then f else f + 1

/-- Python `round(x, 2)`: round half to even at two decimal places. -/
def round2 (q : ℚ) : ℚ := Rat.divInt (roundHalfEven (qmul (mkRat 100 1) q)) 100

deriving instance DecidableEq for Except

/-- Pydantic `OrderItem` (`src/schemas.py`): an embedded, validated order
line item.  `price : float` has no lower bound; `quantity : int` carries
the constraint `ge=1`, enforced by `validateItem` below. -/
structure OrderItem where
  dish_id : String
  name : String
  price : ℚ
  quantity : ℤ
  deriving DecidableEq, Repr

/-- Pydantic `Order` (`src/schemas.py`): the persisted order document. -/
structure Order where
  restaurant_id : String
  items : List OrderItem
  subtotal : ℚ
  delivery_fee : ℚ
  total : ℚ
  customer_name : String
  customer_email : String
  customer_address : String
  notes : Option String
  deriving DecidableEq, Repr

/-- Pydantic `Restaurant` (`src/schemas.py`).  Field bounds (`rating` in
0–5, `delivery_time_min` in 5–120) hold for every document the program
creates and are not needed by any claim, so they are not re-checked here. -/
structure Restaurant where
  name : String
  description : Option String
  image_url : Option String
  cuisine : Option String
  rating : ℚ
  delivery_time_min : ℤ
  deriving DecidableEq, Repr

/-- Pydantic `Dish` (`src/schemas.py`). -/
structure Dish where
  restaurant_id : String
  name : String
  description : Option String
  price : ℚ
  image_url : Option String
  spicy : Bool
  vegetarian : Bool
  deriving DecidableEq, Repr

/-- The item dict built inside the loop of `create_order`
(`src/main.py` lines 121–126): `dish_id` and `name` hold whatever
`it.get(...)` returned (`None` when absent), `price` and `quantity` hold
the already-coerced numbers. -/
structure PreItem where
  dish_id : PyVal
  name : PyVal
  price : ℚ
  quantity : ℤ
  deriving DecidableEq, Repr

/-- Modelled from the spec: the schemaless document store (`database.py` is
not part of the sources; §4.1 of the spec describes generic create/read on
named collections with store-generated identifiers, externally strings).
One list per collection the program uses, plus a counter generating fresh
identifiers. -/
structure Store where
  nextId : ℕ
  restaurant : List (String × Restaurant)
  dish : List (String × Dish)
  order : List (String × Order)
  deriving DecidableEq, Repr

/-- Modelled from the spec: `create_document("restaurant", r)` — insert the
validated entity into its collection and return the generated identifier as
a string (§4.1). -/
def createRestaurantDoc (s : Store) (r : Restaurant) : String × Store :=
  (toString s.nextId,
    { s with nextId := s.nextId + 1, restaurant := s.restaurant ++ [(toString s.nextId, r)] })

/-- Modelled from the spec: `create_document("dish", d)` (§4.1). -/
def createDishDoc (s : Store) (d : Dish) : String × Store :=
  (toString s.nextId,
    { s with nextId := s.nextId + 1, dish := s.dish ++ [(toString s.nextId, d)] })

/-- Modelled from the spec: `create_document("order", doc)` (§4.1). -/
def createOrderDoc (s : Store) (o : Order) : String × Store :=
  (toString s.nextId,
    { s with nextId := s.nextId + 1, order := s.order ++ [(toString s.nextId, o)] })

/-- Pydantic `OrderRequest` (`src/main.py` lines 105–111), after FastAPI has
parsed the request body: the typed fields of the model.  Extra body keys
(such as a client-supplied `subtotal` or `total`) are dropped by pydantic
during parsing and never reach `create_order`, so they have no counterpart
here; extra keys inside each item dict are kept, since `items : List[dict]`
is untyped. -/
structure OrderRequest where
  restaurant_id : String
  items : List RawItem
  customer_name : String
  customer_email : String
  customer_address : String
  notes : Option String

/-- The JSON body `{"status": "ok", "order_id": oid, "total": total}`
returned by `create_order`. -/
structure OrderResponse where
  status : String
  order_id : String
  total : ℚ
  deriving DecidableEq, Repr

/-- The item loop of `create_order` (`src/main.py` lines 116–127): for each
submitted dict, coerce `price` with `float(it.get("price", 0))` and
`quantity` with `int(it.get("quantity", 1))` (either coercion can raise),
collect the normalized item dict, and accumulate `subtotal += price * qty`
left to right.  The accumulator `sub` is the running subtotal. -/
def buildLoop : List RawItem → ℚ → Except String (List PreItem × ℚ)
  | [], sub => .ok ([], sub)
  | it :: rest, sub =>
    match pyFloat (pyGetD it "price" (.num 0)) with
    | .error e => .error e
    | .ok price =>
      match pyInt (pyGetD it "quantity" (.num 1)) with
      | .error e => .error e
      | .ok qty =>
        match buildLoop rest (qadd sub (qmul price (qofInt qty))) with
        | .error e => .error e
        | .ok (ps, total) =>
            .ok (⟨pyGetN it "dish_id", pyGetN it "name", price, qty⟩ :: ps, total)

/-- Pydantic validation of a string field in lax mode: only an actual
string is accepted (numbers and `None` are not coerced to `str`). -/
def asStr : PyVal → Except String String
  | .str s => .ok s
  | _ => .error "Input should be a valid string"

/-- Pydantic validation of one `OrderItem` (`src/schemas.py` lines 28–32):
`dish_id` and `name` must be strings, `quantity` must satisfy `ge=1`;
`price` is already a float. -/
def validateItem (p : PreItem) : Except String OrderItem :=
  match asStr p.dish_id with
  | .error e => .error e
  | .ok d =>
    match asStr p.name with
    | .error e => .error e
    | .ok n =>
      if 1 ≤ p.quantity then .ok ⟨d, n, p.price, p.quantity⟩
      else .error "Input should be greater than or equal to 1"

/-- Pydantic validation of the `items` list of the `Order` entity: each
element in order; the first failure aborts construction. -/
def validateItems : List PreItem → Except String (List OrderItem)
  | [] => .ok []
  | p :: ps =>
    match validateItem p with
    | .error e => .error e
    | .ok i =>
      match validateItems ps with
      | .error e => .error e
      | .ok is => .ok (i :: is)

/-- `create_order` (`src/main.py` lines 113–145) acting on a store state:
run the item loop, compute `delivery_fee = 3.99 if subtotal < 35 else 0.0`
and `total = round(subtotal + delivery_fee, 2)`, construct the `Order`
entity (whose validation rounds into `subtotal=round(subtotal, 2)` and can
reject bad items), persist it, and answer with the computed total.  Any
raised exception leaves the store untouched and is returned as `error`. -/
def createOrder (req : OrderRequest) (db : Store) : Store × Except String OrderResponse :=
  match buildLoop req.items 0 with
  | .error e => (db, .error e)
  | .ok (pre, subtotal) =>
    let delivery_fee : ℚ := if subtotal < 35 then mkRat 399 100 else 0
    let total := round2 (qadd subtotal delivery_fee)
    match validateItems pre with
    | .error e => (db, .error e)
    | .ok items =>
      let doc : Order :=
        { restaurant_id := req.restaurant_id
          items := items
          subtotal := round2 subtotal
          delivery_fee := delivery_fee
          total := total
          customer_name := req.customer_name
          customer_email := req.customer_email
          customer_address := req.customer_address
          notes := req.notes }
      let (oid, db') := createOrderDoc db doc
      (db', .ok { status := "ok", order_id := oid, total := total })

/-- Outcome of `POST /seed`: either the raised `HTTPException(status_code,
detail)` or the `{"status": "ok", "message": ...}` body. -/
inductive SeedResult where
  | err (statusCode : ℕ) (detail : String)
  | ok (message : String)
  deriving DecidableEq, Repr

/-- The fixed restaurants inserted by `seed_data` (`src/main.py` lines
46–71). -/
def seedRestaurants : List Restaurant :=
  [ { name := "Saffron Garden"
      description := some "Modern Indian plates with bold flavors"
      image_url := some "https://images.unsplash.com/photo-1604908176997-43162c1f66fb?q=80&w=2000&auto=format&fit=crop"
      cuisine := some "Indian"
      rating := mkRat 47 10
      delivery_time_min := 25 },
    { name := "Toscana Rustica"
      description := some "Handmade pastas and wood‑fired pizza"
      image_url := some "https://images.unsplash.com/photo-1544025162-d76694265947?q=80&w=2000&auto=format&fit=crop"
      cuisine := some "Italian"
      rating := mkRat 48 10
      delivery_time_min := 30 },
    { name := "Umami Wave"
      description := some "Ramen, sushi and small plates"
      image_url := some "https://images.unsplash.com/photo-1553621042-f6e147245754?q=80&w=2000&auto=format&fit=crop"
      cuisine := some "Japanese"
      rating := mkRat 46 10
      delivery_time_min := 20 } ]

/-- The fixed dishes inserted for each just-created restaurant identifier
`rid` (`src/main.py` lines 76–83); unsupplied pydantic fields take their
defaults (`spicy=False`, `vegetarian=False`). -/
def seedDishes (rid : String) : List Dish :=
  [ { restaurant_id := rid
      name := "Butter Chicken"
      description := some "Creamy tomato sauce"
      price := mkRat 29 2
      image_url := some "https://images.unsplash.com/photo-1625944524872-6d2a3dfcc5a7?q=80&w=1600&auto=format&fit=crop"
      spicy := true
      vegetarian := false },
    { restaurant_id := rid
      name := "Margherita Pizza"
      description := some "Tomato, mozzarella, basil"
      price := 12
      image_url := some "https://images.unsplash.com/photo-1513104890138-7c749659a591?q=80&w=1600&auto=format&fit=crop"
      spicy := false
      vegetarian := true },
    { restaurant_id := rid
      name := "Tonkotsu Ramen"
      description := some "Pork broth, spring onion"
      price := 13
      image_url := some "https://images.unsplash.com/photo-1604908554027-28e7b1d1b3c0?q=80&w=1600&auto=format&fit=crop"
      spicy := false
      vegetarian := false } ]

/-- One iteration of the seeding loop (`src/main.py` lines 73–85): create
the restaurant document, then each of its sample dishes referencing the
generated identifier. -/
def seedStep (s : Store) (r : Restaurant) : Store :=
  let (rid, s1) := createRestaurantDoc s r
  (seedDishes rid).foldl (fun st d => (createDishDoc st d).2) s1

/-- All the writes `seed_data` performs when the store is empty. -/
def seedWrites (s : Store) : Store := seedRestaurants.foldl seedStep s

/-- `seed_data` (`src/main.py` lines 36–87) acting on the global store
handle (`none` models an unconfigured database, `db is None`): raise a 500
when unconfigured; count documents in the restaurant collection and be a
no-op when any exist; otherwise insert the fixed restaurants and dishes. -/
def seedData : Option Store → Option Store × SeedResult
  | none => (none, .err 500 "Database not configured")
  | some s =>
      if 0 < s.restaurant.length then (some s, .ok "Data already seeded")
      else (some (seedWrites s), .ok "Seeded restaurants and dishes")

/-- The empty, freshly configured store. -/
def store0 : Store := { nextId := 0, restaurant := [], dish := [], order := [] }

/-- The price and quantity values a submitted item carries (absent keys
read as `none`); the pricing computation of `create_order` reads nothing
else from an item. -/
def projPQ (it : RawItem) : Option PyVal × Option PyVal :=
  (pyGet it "price", pyGet it "quantity")

/-- A sample submitted item dict with the given price and quantity values. -/
def itemPQ (p q : PyVal) : RawItem :=
  [("dish_id", .str "d1"), ("name", .str "Dish"), ("price", p), ("quantity", q)]

/-- A sample order request with the given items list. -/
def mkReq (its : List RawItem) : OrderRequest :=
  { restaurant_id := "r1"
    items := its
    customer_name := "Ada"
    customer_email := "ada@example.com"
    customer_address := "1 Main St"
    notes := none }

/-- The order document `create_order` persists for `mkReq` inputs, given
its items and the three computed pricing fields. -/
def mkDoc (items : List OrderItem) (sub fee tot : ℚ) : Order :=
  { restaurant_id := "r1"
    items := items
    subtotal := sub
    delivery_fee := fee
    total := tot
    customer_name := "Ada"
    customer_email := "ada@example.com"
    customer_address := "1 Main St"
    notes := none }

/-- The store `store0` after exactly one order document was persisted. -/
def stateAfter (doc : Order) : Store :=
  { nextId := 1, restaurant := [], dish := [], order := [("0", doc)] }

/-- Persisted order for one item at price 34.996, quantity 1: the raw sum
34.996 is below 35 (fee 3.99) but rounds up into a stored subtotal of
exactly 35.00; total = round(34.996 + 3.99, 2) = 38.99. -/
def docC3 : Order :=
  mkDoc [⟨"d1", "Dish", mkRat 34996 1000, 1⟩] 35 (mkRat 399 100) (mkRat 3899 100)

/-- Persisted order for one item at price 0.125, quantity 1.  0.125 = 1/8
is exactly representable in binary, so the program hits the same half-cent
tie as the exact-rational model and rounds it the same way: the stored
subtotal `round(0.125, 2)` ties half-to-even down to 0.12, while the total
`round(0.125 + 3.99, 2) = round(4.115, 2)` resolves to 4.12 — and
`round(0.12 + 3.99, 2)` is 4.11, not the stored total. -/
def docC4 : Order :=
  mkDoc [⟨"d1", "Dish", mkRat 1 8, 1⟩] (mkRat 12 100) (mkRat 399 100) (mkRat 412 100)

/-- Persisted order for an empty items list: subtotal 0, fee 3.99,
total 3.99. -/
def docC5 : Order := mkDoc [] 0 (mkRat 399 100) (mkRat 399 100)

/-- Persisted order for one item at price −10, quantity 1: the negative
price flows through, subtotal −10.00, fee 3.99, total −6.01. -/
def docC9 : Order := mkDoc [⟨"d1", "Dish", -10, 1⟩] (-10) (mkRat 399 100) (mkRat (-601) 100)

/-- Persisted order for one item at price 10, quantity 2. -/
def docW10x2 : Order := mkDoc [⟨"d1", "Dish", 10, 2⟩] 20 (mkRat 399 100) (mkRat 2399 100)

/-- Persisted order for one item at price 20, quantity 2 (subtotal 40 is
over the free-delivery threshold). -/
def docW20x2 : Order := mkDoc [⟨"d1", "Dish", 20, 2⟩] 40 0 40

/-- Persisted order for items 10×2 and 5×1 (the spec's scenario:
subtotal 25.00, fee 3.99, total 28.99). -/
def docW25 : Order :=
  mkDoc [⟨"d1", "Dish", 10, 2⟩, ⟨"d1", "Dish", 5, 1⟩] 25 (mkRat 399 100) (mkRat 2899 100)

/-- A second order request, agreeing with `mkReq [itemPQ (.num 5) (.num 2)]`
on every item's price and quantity but differing everywhere else, including
a client-supplied per-item `subtotal` key. -/
def reqOther : OrderRequest :=
  { restaurant_id := "r2"
    items := [[("dish_id", .str "dX"), ("name", .str "Other"),
               ("price", .num 5), ("quantity", .num 2), ("subtotal", .num 999)]]
    customer_name := "Bob"
    customer_email := "bob@example.com"
    customer_address := "2 Side St"
    notes := some "ring twice" }

/-- Persisted order for `mkReq [itemPQ (.num 5) (.num 2)]`. -/
def docW5x2 : Order := mkDoc [⟨"d1", "Dish", 5, 2⟩] 10 (mkRat 399 100) (mkRat 1399 100)

/-- Persisted order for `reqOther`: same pricing fields as `docW5x2`. -/
def docOther : Order :=
  { restaurant_id := "r2"
    items := [⟨"dX", "Other", 5, 2⟩]
    subtotal := 10
    delivery_fee := mkRat 399 100
    total := mkRat 1399 100
    customer_name := "Bob"
    customer_email := "bob@example.com"
    customer_address := "2 Side St"
    notes := some "ring twice" }

/-- A store whose restaurant collection already holds one document. -/
def storeOne : Store :=
  { nextId := 1
    restaurant := [("0", { name := "Existing"
                           description := none
                           image_url := none
                           cuisine := none
                           rating := mkRat 23 5
                           delivery_time_min := 20 })]
    dish := []
    order := [] }

theorem qadd_eq (a b : ℚ) : qadd a b = a + b := by
  have ha : ((a.den : ℚ)) ≠ 0 := by exact_mod_cast a.den_nz
  have hb : ((b.den : ℚ)) ≠ 0 := by exact_mod_cast b.den_nz
  rw [qadd, Rat.mkRat_eq_div]
  push_cast
  conv_rhs => rw [← Rat.num_div_den a, ← Rat.num_div_den b]
  rw [div_add_div _ _ ha hb]
  ring_nf

theorem qmul_eq (a b : ℚ) : qmul a b = a * b := by
  rw [qmul, Rat.mkRat_eq_div]
  push_cast
  conv_rhs => rw [← Rat.num_div_den a, ← Rat.num_div_den b]
  rw [div_mul_div_comm]

theorem qofInt_eq (n : ℤ) : qofInt n = (n : ℚ) := by
  rw [qofInt, Rat.mkRat_eq_div]
  norm_num

/-- The raw subtotal computed by the item loop is the accumulator plus the
exact sum of `price * quantity` over the collected items. -/
theorem buildLoop_subtotal (its : List RawItem) (acc : ℚ) (pre : List PreItem) (sub : ℚ)
    (h : buildLoop its acc = .ok (pre, sub)) :
    sub = acc + ((pre.map fun p => p.price * (p.quantity : ℚ)).sum) := by
  induction its generalizing acc pre sub with
  | nil =>
      simp only [buildLoop, Except.ok.injEq, Prod.mk.injEq] at h
      obtain ⟨h1, h2⟩ := h
      subst h1
      subst h2
      simp
  | cons it rest ih =>
      simp only [buildLoop] at h
      split at h
      · exact absurd h (by simp)
      · split at h
        · exact absurd h (by simp)
        · split at h
          · exact absurd h (by simp)
          · rename_i price _ qty _ _ ps tail htail
            simp only [Except.ok.injEq, Prod.mk.injEq] at h
            obtain ⟨h1, h2⟩ := h
            subst h1
            subst h2
            have := ih _ _ _ htail
            rw [this, qadd_eq, qmul_eq, qofInt_eq]
            simp only [List.map_cons, List.sum_cons]
            ring

/-- Validation of the items list preserves each item's price and quantity. -/
theorem validateItems_pq (pre : List PreItem) (items : List OrderItem)
    (h : validateItems pre = .ok items) :
    items.map (fun i => (i.price, i.quantity)) = pre.map (fun p => (p.price, p.quantity)) := by
  induction pre generalizing items with
  | nil =>
      simp only [validateItems, Except.ok.injEq] at h
      subst h
      simp
  | cons p ps ih =>
      simp only [validateItems] at h
      split at h
      · exact absurd h (by simp)
      · rename_i i hi
        split at h
        · exact absurd h (by simp)
        · rename_i is his
          simp only [Except.ok.injEq] at h
          subst h
          simp only [List.map_cons, ih is his, List.cons.injEq, and_true]
          simp only [validateItem] at hi
          split at hi
          · exact absurd hi (by simp)
          · split at hi
            · exact absurd hi (by simp)
            · split at hi
              · simp only [Except.ok.injEq] at hi
                subst hi
                rfl
              · exact absurd hi (by simp)

/-- Shape of every successful `create_order` run: the item loop and the
entity validation succeeded, exactly one order document was appended to the
order collection — its pricing fields computed from the raw subtotal `sub`
— and the response carries the same computed total. -/
theorem createOrder_ok (req : OrderRequest) (db db' : Store) (resp : OrderResponse)
    (h : createOrder req db = (db', .ok resp)) :
    ∃ pre sub items, buildLoop req.items 0 = .ok (pre, sub) ∧
      validateItems pre = .ok items ∧
      db' = { db with
              nextId := db.nextId + 1
              order := db.order ++ [(toString db.nextId,
                { restaurant_id := req.restaurant_id
                  items := items
                  subtotal := round2 sub
                  delivery_fee := if sub < 35 then mkRat 399 100 else 0
                  total := round2 (qadd sub (if sub < 35 then mkRat 399 100 else 0))
                  customer_name := req.customer_name
                  customer_email := req.customer_email
                  customer_address := req.customer_address
                  notes := req.notes })] } ∧
      resp = { status := "ok", order_id := toString db.nextId,
               total := round2 (qadd sub (if sub < 35 then mkRat 399 100 else 0)) } := by
  simp only [createOrder, createOrderDoc] at h
  split at h
  · exact absurd h (by simp)
  · rename_i pre sub hb
    split at h
    · exact absurd h (by simp)
    · rename_i items hv
      rw [Prod.mk.injEq] at h
      obtain ⟨h1, h2⟩ := h
      simp only [Except.ok.injEq] at h2
      exact ⟨pre, sub, items, hb, hv, h1.symm, h2.symm⟩

/-- Mapping `price * quantity` over validated items agrees with mapping it
over the pre-validation items. -/
theorem map_pq_mul (pre : List PreItem) (items : List OrderItem)
    (hpq : items.map (fun i => (i.price, i.quantity)) = pre.map (fun p => (p.price, p.quantity))) :
    (items.map fun i => i.price * (i.quantity : ℚ)) = (pre.map fun p => p.price * (p.quantity : ℚ)) := by
  have h := congrArg (List.map (fun pq : ℚ × ℤ => pq.1 * (pq.2 : ℚ))) hpq
  simpa [List.map_map, Function.comp_def] using h

/-- Claim C2 (confirmed): every successful `POST /orders` run appends one
order document whose stored `subtotal` is `round(Σ price_i · qty_i, 2)`
over the coerced submitted items — which are exactly the persisted items. -/
theorem order_subtotal_is_rounded_sum (req : OrderRequest) (db db' : Store)
    (resp : OrderResponse) (h : createOrder req db = (db', .ok resp)) :
    ∃ oid doc, db'.order = db.order ++ [(oid, doc)] ∧
      doc.subtotal = round2 ((doc.items.map fun i => i.price * (i.quantity : ℚ)).sum) := by
  obtain ⟨pre, sub, items, hb, hv, hdb, _⟩ := createOrder_ok req db db' resp h
  subst hdb
  refine ⟨toString db.nextId, _, rfl, ?_⟩
  show round2 sub = round2 ((items.map fun i => i.price * (i.quantity : ℚ)).sum)
  rw [buildLoop_subtotal _ _ _ _ hb, zero_add,
    map_pq_mul pre items (validateItems_pq pre items hv)]

/-- Witness for C2 at a concrete input: one item at price 10, quantity 2. -/
theorem order_subtotal_is_rounded_sum_witness :
    ∃ oid doc, (stateAfter docW10x2).order = store0.order ++ [(oid, doc)] ∧
      doc.subtotal = round2 ((doc.items.map fun i => i.price * (i.quantity : ℚ)).sum) :=
  order_subtotal_is_rounded_sum (mkReq [itemPQ (.num 10) (.num 2)]) store0
    (stateAfter docW10x2) ⟨"ok", "0", mkRat 2399 100⟩ (by decide)

/-- Claim C3 as stated is false: for the single item priced 34.996
(quantity 1) the persisted order carries `delivery_fee = 3.99` although its
persisted `subtotal` is exactly 35.00, not strictly less than 35. -/
theorem delivery_fee_iff_persisted_subtotal_cex :
    (createOrder (mkReq [itemPQ (.num (mkRat 34996 1000)) (.num 1)]) store0).1.order
        = [("0", docC3)] ∧
      docC3.delivery_fee = mkRat 399 100 ∧ docC3.subtotal = 35 ∧ ¬ docC3.subtotal < 35 := by
  refine ⟨?_, by decide, by decide, by decide⟩
  decide

/-- Claim C3 (amended): the fee is decided on the raw, unrounded item sum:
`delivery_fee = 3.99` iff `Σ price_i · qty_i < 35`, and `0` otherwise.  This
coincides with the test on the persisted subtotal except when rounding the
sum to cents crosses the 35.00 boundary. -/
theorem delivery_fee_from_raw_sum (req : OrderRequest) (db db' : Store)
    (resp : OrderResponse) (h : createOrder req db = (db', .ok resp)) :
    ∃ oid doc, db'.order = db.order ++ [(oid, doc)] ∧
      doc.delivery_fee =
        (if (doc.items.map fun i => i.price * (i.quantity : ℚ)).sum < 35
         then mkRat 399 100 else 0) ∧
      (doc.delivery_fee = mkRat 399 100 ↔
        (doc.items.map fun i => i.price * (i.quantity : ℚ)).sum < 35) := by
  obtain ⟨pre, sub, items, hb, hv, hdb, _⟩ := createOrder_ok req db db' resp h
  subst hdb
  refine ⟨toString db.nextId, _, rfl, ?_, ?_⟩
  all_goals
    have hsum : (items.map fun i => i.price * (i.quantity : ℚ)).sum = sub := by
      rw [map_pq_mul pre items (validateItems_pq pre items hv),
        ← zero_add ((pre.map fun p => p.price * (p.quantity : ℚ)).sum),
        ← buildLoop_subtotal _ _ _ _ hb]
  · show (if sub < 35 then mkRat 399 100 else 0) = _
    rw [hsum]
  · show (if sub < 35 then mkRat 399 100 else 0) = mkRat 399 100 ↔ _
    rw [hsum]
    split
    · simpa
    · constructor
      · intro h0
        exact absurd h0.symm (by decide)
      · intro hlt
        exact absurd hlt (by assumption)

/-- Witness for the amended C3 at a concrete input: one item at price 20,
quantity 2 — the raw sum 40 is not below 35, so the fee is 0. -/
theorem delivery_fee_from_raw_sum_witness :
    ∃ oid doc, (stateAfter docW20x2).order = store0.order ++ [(oid, doc)] ∧
      doc.delivery_fee =
        (if (doc.items.map fun i => i.price * (i.quantity : ℚ)).sum < 35
         then mkRat 399 100 else 0) ∧
      (doc.delivery_fee = mkRat 399 100 ↔
        (doc.items.map fun i => i.price * (i.quantity : ℚ)).sum < 35) :=
  delivery_fee_from_raw_sum (mkReq [itemPQ (.num 20) (.num 2)]) store0
    (stateAfter docW20x2) ⟨"ok", "0", (40 : ℚ)⟩ (by decide)

/-- Claim C4 as stated is false: for the single item priced 0.125
(quantity 1 — a price exact in binary, so the program and the model round
the very same half-cent ties identically) the persisted order carries
subtotal 0.12, fee 3.99 and total 4.12, but rounding the persisted
subtotal plus the fee gives `round(0.12 + 3.99, 2) = 4.11 ≠ 4.12`. -/
theorem total_from_persisted_subtotal_cex :
    (createOrder (mkReq [itemPQ (.num (mkRat 1 8)) (.num 1)]) store0).1.order
        = [("0", docC4)] ∧
      docC4.subtotal = mkRat 12 100 ∧ docC4.total = mkRat 412 100 ∧
      round2 (docC4.subtotal + docC4.delivery_fee) = mkRat 411 100 ∧
      docC4.total ≠ round2 (docC4.subtotal + docC4.delivery_fee) := by
  rw [← qadd_eq]
  refine ⟨?_, by decide, by decide, by decide, by decide⟩
  decide

/-- Claim C4 (amended): the persisted total is `round(s + f, 2)` where `s`
is the raw, unrounded item sum (not the rounded stored subtotal) and `f`
the stored fee; that total is also the value returned to the caller. -/
theorem total_from_raw_sum (req : OrderRequest) (db db' : Store)
    (resp : OrderResponse) (h : createOrder req db = (db', .ok resp)) :
    ∃ oid doc, db'.order = db.order ++ [(oid, doc)] ∧
      doc.total =
        round2 ((doc.items.map fun i => i.price * (i.quantity : ℚ)).sum + doc.delivery_fee) ∧
      resp.total = doc.total := by
  obtain ⟨pre, sub, items, hb, hv, hdb, hresp⟩ := createOrder_ok req db db' resp h
  subst hdb
  subst hresp
  refine ⟨toString db.nextId, _, rfl, ?_, rfl⟩
  have hsum : (items.map fun i => i.price * (i.quantity : ℚ)).sum = sub := by
    rw [map_pq_mul pre items (validateItems_pq pre items hv),
      ← zero_add ((pre.map fun p => p.price * (p.quantity : ℚ)).sum),
      ← buildLoop_subtotal _ _ _ _ hb]
  show round2 (qadd sub _) = _
  rw [qadd_eq, hsum]

/-- Witness for the amended C4 at the spec's scenario: items 10×2 and 5×1,
total `round(25 + 3.99, 2) = 28.99`, returned to the caller. -/
theorem total_from_raw_sum_witness :
    ∃ oid doc, (stateAfter docW25).order = store0.order ++ [(oid, doc)] ∧
      doc.total =
        round2 ((doc.items.map fun i => i.price * (i.quantity : ℚ)).sum + doc.delivery_fee) ∧
      (OrderResponse.mk "ok" "0" (mkRat 2899 100)).total = doc.total :=
  total_from_raw_sum (mkReq [itemPQ (.num 10) (.num 2), itemPQ (.num 5) (.num 1)]) store0
    (stateAfter docW25) ⟨"ok", "0", mkRat 2899 100⟩ (by decide)

/-- Claim C5 (confirmed): a request with an empty items list is accepted:
one order document is persisted with subtotal 0, delivery fee 3.99 and
total 3.99, and the response reports status ok with that total. -/
theorem empty_items_accepted (req : OrderRequest) (db : Store) (h : req.items = []) :
    ∃ doc resp, createOrder req db =
        ({ db with
           nextId := db.nextId + 1
           order := db.order ++ [(toString db.nextId, doc)] }, .ok resp) ∧
      doc.subtotal = 0 ∧ doc.delivery_fee = mkRat 399 100 ∧ doc.total = mkRat 399 100 ∧
      resp.status = "ok" ∧ resp.total = doc.total := by
  have hb : buildLoop req.items 0 = .ok ([], 0) := by rw [h, buildLoop]
  refine ⟨{ restaurant_id := req.restaurant_id
            items := []
            subtotal := round2 0
            delivery_fee := if (0 : ℚ) < 35 then mkRat 399 100 else 0
            total := round2 (qadd 0 (if (0 : ℚ) < 35 then mkRat 399 100 else 0))
            customer_name := req.customer_name
            customer_email := req.customer_email
            customer_address := req.customer_address
            notes := req.notes },
          { status := "ok"
            order_id := toString db.nextId
            total := round2 (qadd 0 (if (0 : ℚ) < 35 then mkRat 399 100 else 0)) },
          ?_,
          (by decide : round2 0 = (0 : ℚ)),
          (by decide : (if (0 : ℚ) < 35 then mkRat 399 100 else 0) = mkRat 399 100),
          (by decide : round2 (qadd 0 (if (0 : ℚ) < 35 then mkRat 399 100 else 0)) = mkRat 399 100),
          rfl, rfl⟩
  simp only [createOrder, hb, validateItems, createOrderDoc]

/-- Witness for C5 at the concrete empty-items request. -/
theorem empty_items_accepted_witness :
    ∃ doc resp, createOrder (mkReq []) store0 =
        ({ store0 with
           nextId := store0.nextId + 1
           order := store0.order ++ [(toString store0.nextId, doc)] }, .ok resp) ∧
      doc.subtotal = 0 ∧ doc.delivery_fee = mkRat 399 100 ∧ doc.total = mkRat 399 100 ∧
      resp.status = "ok" ∧ resp.total = doc.total :=
  empty_items_accepted (mkReq []) store0 rfl

/-- Claim C9 (confirmed): a negative numeric price is accepted unchanged —
the persisted item keeps price −10, and both the stored subtotal (−10.00)
and total (−6.01) are negative. -/
theorem negative_price_flows_through :
    createOrder (mkReq [itemPQ (.num (-10)) (.num 1)]) store0
        = (stateAfter docC9, .ok ⟨"ok", "0", mkRat (-601) 100⟩) ∧
      docC9.items = [⟨"d1", "Dish", -10, 1⟩] ∧
      docC9.subtotal = -10 ∧ docC9.subtotal < 0 ∧ docC9.total < 0 :=
  ⟨by decide, by decide, by decide, by decide, by decide⟩

/-- Claim C10 (confirmed): when the `Order` entity fails schema validation,
`create_order` raises that validation error and returns with the store
exactly as it was — the persistence call is never reached. -/
theorem validation_error_no_write (req : OrderRequest) (db : Store) (pre : List PreItem)
    (sub : ℚ) (e : String) (hb : buildLoop req.items 0 = .ok (pre, sub))
    (hv : validateItems pre = .error e) :
    createOrder req db = (db, .error e) := by
  simp only [createOrder, hb, hv]

/-- Witness for C10: a coerced quantity of 0 fails the `ge=1` bound and the
store is left unchanged. -/
theorem validation_error_no_write_witness :
    createOrder (mkReq [itemPQ (.num 17) (.num 0)]) store0
        = (store0, .error "Input should be greater than or equal to 1") :=
  validation_error_no_write _ store0 [⟨.str "d1", .str "Dish", 17, 0⟩] 0 _
    (by decide) (by decide)

/-- Claim C1 as stated is false: a non-numeric price string does not coerce
to 0 — `float("abc")` raises, so the whole request fails with an error and
nothing is persisted. -/
theorem non_numeric_price_fails_request_cex :
    createOrder (mkReq [itemPQ (.str "abc") (.num 1)]) store0
        = (store0, .error "could not convert string to float") := by
  decide

/-- Claim C1 (amended): a missing price coerces to 0 and a missing quantity
coerces to 1; a numeric price is used exactly as submitted (it may be
negative); but a non-numeric price string makes the coercion — and hence
the request — fail instead of coercing to 0. -/
theorem item_coercion (it : RawItem) :
    (pyGet it "price" = none → pyFloat (pyGetD it "price" (.num 0)) = .ok 0) ∧
    (pyGet it "quantity" = none → pyInt (pyGetD it "quantity" (.num 1)) = .ok 1) ∧
    (∀ q : ℚ, pyGet it "price" = some (.num q) → pyFloat (pyGetD it "price" (.num 0)) = .ok q) ∧
    (∀ s : String, pyGet it "price" = some (.str s) → parseFloatStr s = none →
      pyFloat (pyGetD it "price" (.num 0)) = .error "could not convert string to float") := by
  refine ⟨fun h => ?_, fun h => ?_, fun q h => ?_, fun s h hs => ?_⟩
  · simp only [pyGetD, h, Option.getD]
    decide
  · simp only [pyGetD, h, Option.getD]
    decide
  · simp only [pyGetD, h, Option.getD, pyFloat]
  · simp only [pyGetD, h, Option.getD, pyFloat, hs]

/-- Witness for the amended C1: both keys absent give price 0, quantity 1;
a present numeric price 2.5 is used as-is. -/
theorem item_coercion_witness :
    pyFloat (pyGetD ([] : RawItem) "price" (.num 0)) = .ok 0 ∧
    pyInt (pyGetD ([] : RawItem) "quantity" (.num 1)) = .ok 1 ∧
    pyFloat (pyGetD (itemPQ (.num (mkRat 5 2)) (.num 1)) "price" (.num 0)) = .ok (mkRat 5 2) :=
  ⟨(item_coercion []).1 (by decide), (item_coercion []).2.1 (by decide),
   (item_coercion (itemPQ (.num (mkRat 5 2)) (.num 1))).2.2.1 (mkRat 5 2) (by decide)⟩

/-- The item loop's outcome — failure, or the raw subtotal — is determined
by the submitted price and quantity values alone. -/
theorem buildLoop_proj (its1 : List RawItem) (its2 : List RawItem) (acc : ℚ)
    (hpq : its1.map projPQ = its2.map projPQ) :
    Except.map Prod.snd (buildLoop its1 acc) = Except.map Prod.snd (buildLoop its2 acc) := by
  induction its1 generalizing its2 acc with
  | nil =>
      cases its2 with
      | nil => rfl
      | cons b bs => simp [projPQ] at hpq
  | cons a as ih =>
      cases its2 with
      | nil => simp [projPQ] at hpq
      | cons b bs =>
          simp only [List.map_cons, List.cons.injEq] at hpq
          obtain ⟨hab, hrest⟩ := hpq
          have hprice : pyGetD a "price" (.num 0) = pyGetD b "price" (.num 0) := by
            unfold pyGetD
            rw [show pyGet a "price" = pyGet b "price" from congrArg Prod.fst hab]
          have hqty : pyGetD a "quantity" (.num 1) = pyGetD b "quantity" (.num 1) := by
            unfold pyGetD
            rw [show pyGet a "quantity" = pyGet b "quantity" from congrArg Prod.snd hab]
          simp only [buildLoop, hprice, hqty]
          cases hp : pyFloat (pyGetD b "price" (.num 0)) with
          | error e => rfl
          | ok price =>
            cases hq : pyInt (pyGetD b "quantity" (.num 1)) with
            | error e => rfl
            | ok qty =>
              have hih := ih bs (qadd acc (qmul price (qofInt qty))) hrest
              cases h1 : buildLoop as (qadd acc (qmul price (qofInt qty))) with
              | error e1 =>
                  cases h2 : buildLoop bs (qadd acc (qmul price (qofInt qty))) with
                  | error e2 =>
                      rw [h1, h2] at hih
                      simp only [h1, h2, Except.map] at hih ⊢
                      exact hih
                  | ok pr2 =>
                      rw [h1, h2] at hih
                      simp [Except.map] at hih
              | ok pr1 =>
                  cases h2 : buildLoop bs (qadd acc (qmul price (qofInt qty))) with
                  | error e2 =>
                      rw [h1, h2] at hih
                      simp [Except.map] at hih
                  | ok pr2 =>
                      obtain ⟨ps1, t1⟩ := pr1
                      obtain ⟨ps2, t2⟩ := pr2
                      rw [h1, h2] at hih
                      simp only [h1, h2, Except.map] at hih ⊢
                      exact hih

/-- Claim C6 (confirmed): the three computed pricing fields of the
persisted order depend only on the submitted items' price and quantity
values — two successfully persisted requests whose items agree on those
values get identical subtotal, delivery fee and total, whatever the rest
of the two requests contains. -/
theorem pricing_depends_only_on_items_pq (r1 r2 : OrderRequest)
    (db1 db2 db1' db2' : Store) (resp1 resp2 : OrderResponse)
    (hpq : r1.items.map projPQ = r2.items.map projPQ)
    (h1 : createOrder r1 db1 = (db1', .ok resp1))
    (h2 : createOrder r2 db2 = (db2', .ok resp2)) :
    ∃ oid1 doc1 oid2 doc2,
      db1'.order = db1.order ++ [(oid1, doc1)] ∧
      db2'.order = db2.order ++ [(oid2, doc2)] ∧
      doc1.subtotal = doc2.subtotal ∧
      doc1.delivery_fee = doc2.delivery_fee ∧
      doc1.total = doc2.total := by
  obtain ⟨pre1, sub1, items1, hb1, hv1, hdb1, -⟩ := createOrder_ok r1 db1 db1' resp1 h1
  obtain ⟨pre2, sub2, items2, hb2, hv2, hdb2, -⟩ := createOrder_ok r2 db2 db2' resp2 h2
  subst hdb1
  subst hdb2
  have hsub : sub1 = sub2 := by
    have hm := buildLoop_proj r1.items r2.items 0 hpq
    rw [hb1, hb2] at hm
    simpa [Except.map] using hm
  subst hsub
  exact ⟨toString db1.nextId, _, toString db2.nextId, _, rfl, rfl, rfl, rfl, rfl⟩

/-- Witness for C6: two requests sharing only item price 5 and quantity 2
(different restaurant, dish, customer, notes, and an extra client-supplied
per-item subtotal key) persist identical pricing fields. -/
theorem pricing_depends_only_on_items_pq_witness :
    ∃ oid1 doc1 oid2 doc2,
      (stateAfter docW5x2).order = store0.order ++ [(oid1, doc1)] ∧
      (stateAfter docOther).order = store0.order ++ [(oid2, doc2)] ∧
      doc1.subtotal = doc2.subtotal ∧
      doc1.delivery_fee = doc2.delivery_fee ∧
      doc1.total = doc2.total :=
  pricing_depends_only_on_items_pq (mkReq [itemPQ (.num 5) (.num 2)]) reqOther
    store0 store0 (stateAfter docW5x2) (stateAfter docOther)
    ⟨"ok", "0", mkRat 1399 100⟩ ⟨"ok", "0", mkRat 1399 100⟩
    (by decide) (by decide) (by decide)

/-- Each seeding iteration appends exactly one restaurant document. -/
theorem seedStep_restaurant (s : Store) (r : Restaurant) :
    (seedStep s r).restaurant = s.restaurant ++ [(toString s.nextId, r)] := by
  simp [seedStep, createRestaurantDoc, createDishDoc, seedDishes]

/-- A full seeding pass grows the restaurant collection by exactly the
three fixed restaurants. -/
theorem seedWrites_restaurant_len (s : Store) :
    (seedWrites s).restaurant.length = s.restaurant.length + 3 := by
  simp [seedWrites, seedRestaurants, List.foldl, seedStep_restaurant]

/-- Claim C7 (confirmed): seeding is idempotent — with at least one
restaurant document present, `seed_data` writes nothing and reports the
data already seeded; and for every configured store, running it twice
leaves exactly the state of running it once, the second call being that
no-op. -/
theorem seed_idempotent (s : Store) :
    (s.restaurant ≠ [] → seedData (some s) = (some s, .ok "Data already seeded")) ∧
    (seedData (seedData (some s)).1).1 = (seedData (some s)).1 ∧
    (seedData (seedData (some s)).1).2 = .ok "Data already seeded" := by
  refine ⟨fun hne => ?_, ?_, ?_⟩
  · have hlen : 0 < s.restaurant.length := List.length_pos.mpr hne
    simp [seedData, hlen]
  all_goals
    by_cases hc : 0 < s.restaurant.length
  · simp [seedData, hc]
  · have h3 : 0 < (seedWrites s).restaurant.length := by
      rw [seedWrites_restaurant_len]
      omega
    simp [seedData, hc, h3]
  · simp [seedData, hc]
  · have h3 : 0 < (seedWrites s).restaurant.length := by
      rw [seedWrites_restaurant_len]
      omega
    simp [seedData, hc, h3]

/-- Witness for C7 at a store already holding one restaurant document. -/
theorem seed_idempotent_witness :
    seedData (some storeOne) = (some storeOne, .ok "Data already seeded") ∧
    (seedData (seedData (some storeOne)).1).1 = (seedData (some storeOne)).1 :=
  ⟨(seed_idempotent storeOne).1 (by decide), (seed_idempotent storeOne).2.1⟩

/-- Claim C8 (confirmed): with no store connection configured, `POST /seed`
raises HTTP 500 with the fixed message before touching any collection —
the (absent) store is returned exactly as it was, with nothing written. -/
theorem seed_unconfigured :
    seedData none = (none, .err 500 "Database not configured") := rfl

end FoodDelivery
